import Mathlib

/-!
Verification of the Qforia query fan-out simulator (`app.py`).

The development shallowly embeds the pieces of the program that the
specification talks about:

* the prompt builder `get_query_fanout_prompt` (string concatenation,
  mirroring Python `str.format` / f-strings on the constant templates);
* the response interpreter inside `generate_fanout`: Python `str.strip`,
  the regex search `re.search("\x7b.*\x7d", raw, re.DOTALL)`, `json.loads`
  (modelled by a fuel-indexed recursive-descent JSON reader), and the
  `dict.get` look-ups with their defaults;
* the run-button handler (clearing of session state, the empty-query guard);
* the result display: the generation-plan panel, the pandas column
  selection `df[[...]]` (which raises `KeyError` when a requested column
  is absent) and `DataFrame.to_csv(index=False)`.
-/

namespace Qforia

/-! ### Python `str.strip` -/

/-- Whitespace characters removed by Python `str.strip()` (ASCII part). -/
def isPyWs (c : Char) : Bool :=
  c = ' ' || c = '\t' || c = '\n' || c = '\r' || c = '\x0b' || c = '\x0c'

/-- The `str.strip()` on a character list: drop whitespace from both ends. -/
def pyStripL (s : List Char) : List Char :=
  ((s.dropWhile isPyWs).reverse.dropWhile isPyWs).reverse

/-- The `str.strip()` on strings. -/
def pyStrip (s : String) : String :=
  String.mk (pyStripL s.data)

/-! ### The regex `\x7b.*\x7d` with `re.DOTALL`

`re.search` returns the leftmost match; `.*` is greedy and, under
`DOTALL`, also eats newlines.  So a match starts at the first `\x7b`
that is followed (strictly later) by some `\x7d`, and extends to the
last `\x7d` of the text. -/

/-- Keep the prefix of `rest` up to (and including) the last `\x7d` of
`rest`; `none` when `rest` has no `\x7d`.  This is the greedy `.*\x7d`:
the longest prefix that ends in `\x7d`. -/
def takeUptoLastClose : List Char → Option (List Char)
  | [] => none
  | c :: cs =>
      match takeUptoLastClose cs with
      | some m => some (c :: m)
      | none => if c = '}' then some [c] else none

/-- Index of the first `\x7b` of `s`, if any. -/
def firstOpenIdx : List Char → Option Nat
  | [] => none
  | c :: cs =>
      if c = '{' then some 0 else (firstOpenIdx cs).map (fun i => i + 1)

/-- Index of the last `\x7d` of `s`, if any. -/
def lastCloseIdx : List Char → Option Nat
  | [] => none
  | c :: cs =>
      match lastCloseIdx cs with
      | some j => some (j + 1)
      | none => if c = '}' then some 0 else none

/-- Try to match `\x7b.*\x7d` anchored at the start of `u`. -/
def matchHere (u : List Char) : Option (List Char) :=
  match u with
  | [] => none
  | c :: rest =>
      if c = '{' then (takeUptoLastClose rest).map (fun m => c :: m) else none

/-- The `re.search`: try to match at every position, leftmost first. -/
def searchBrace : List Char → Option (List Char)
  | [] => none
  | c :: rest =>
      match matchHere (c :: rest) with
      | some m => some m
      | none => searchBrace rest

/-! ### JSON values and a model of `json.loads` -/

/-- JSON values as produced by `json.loads` (numbers restricted to the
integers, which is all the schema uses). -/
inductive Json where
  | null : Json
  | bool : Bool → Json
  | num : Int → Json
  | str : String → Json
  | arr : List Json → Json
  | obj : List (String × Json) → Json

/-- JSON inter-token whitespace (`json.decoder` skips exactly these). -/
def isJsonWs (c : Char) : Bool :=
  c = ' ' || c = '\t' || c = '\n' || c = '\r'

/-- Skip JSON whitespace. -/
def skipWs (s : List Char) : List Char :=
  s.dropWhile isJsonWs

/-- Value of a hexadecimal digit. -/
def hexVal (c : Char) : Option Nat :=
  if '0' ≤ c ∧ c ≤ '9' then some (c.toNat - 48)
  else if 'a' ≤ c ∧ c ≤ 'f' then some (c.toNat - 87)
  else if 'A' ≤ c ∧ c ≤ 'F' then some (c.toNat - 55)
  else none

/-- The two-character escapes accepted inside JSON strings. -/
def escChar (c : Char) : Option Char :=
  if c = '"' then some '"'
  else if c = '\\' then some '\\'
  else if c = '/' then some '/'
  else if c = 'b' then some (Char.ofNat 8)
  else if c = 'f' then some (Char.ofNat 12)
  else if c = 'n' then some '\n'
  else if c = 'r' then some '\r'
  else if c = 't' then some '\t'
  else none

/-- Scan a JSON string body (the opening quote already consumed); return
the decoded characters and the input after the closing quote.  Raw
control characters are rejected, as in `json.loads` strict mode. -/
def parseStrAux : List Char → Option (List Char × List Char)
  | [] => none
  | c :: cs =>
      if c = '"' then some ([], cs)
      else if c = '\\' then
        match cs with
        | [] => none
        | e :: cs2 =>
            if e = 'u' then
              match cs2 with
              | h1 :: h2 :: h3 :: h4 :: cs3 =>
                  match hexVal h1, hexVal h2, hexVal h3, hexVal h4 with
                  | some d1, some d2, some d3, some d4 =>
                      match parseStrAux cs3 with
                      | some (t, r) =>
                          some (Char.ofNat (((d1 * 16 + d2) * 16 + d3) * 16 + d4) :: t, r)
                      | none => none
                  | _, _, _, _ => none
              | _ => none
            else
              match escChar e with
              | some d =>
                  match parseStrAux cs2 with
                  | some (t, r) => some (d :: t, r)
                  | none => none
              | none => none
      else if c.toNat < 32 then none
      else
        match parseStrAux cs with
        | some (t, r) => some (c :: t, r)
        | none => none

/-- Read a non-empty run of decimal digits. -/
def parseNatNum (s : List Char) : Option (Nat × List Char) :=
  let ds := s.takeWhile (fun c => c.isDigit)
  if ds.isEmpty then none
  else some (ds.foldl (fun a c => 10 * a + (c.toNat - 48)) 0,
             s.dropWhile (fun c => c.isDigit))

/-- Read a JSON integer (optional minus sign, then digits). -/
def parseNumber (s : List Char) : Option (Int × List Char) :=
  match s with
  | [] => none
  | c :: r =>
      if c = '-' then (parseNatNum r).map (fun p => (-(p.1 : Int), p.2))
      else (parseNatNum (c :: r)).map (fun p => ((p.1 : Int), p.2))

mutual

/-- Recursive-descent JSON value reader (fuel-indexed). -/
def parseVal : Nat → List Char → Option (Json × List Char)
  | 0, _ => none
  | n + 1, s =>
      match skipWs s with
      | '{' :: r => parseObjBody n r
      | '[' :: r => parseArrBody n r
      | '"' :: r =>
          match parseStrAux r with
          | some (cs, rest) => some (Json.str (String.mk cs), rest)
          | none => none
      | 'n' :: 'u' :: 'l' :: 'l' :: r => some (Json.null, r)
      | 't' :: 'r' :: 'u' :: 'e' :: r => some (Json.bool true, r)
      | 'f' :: 'a' :: 'l' :: 's' :: 'e' :: r => some (Json.bool false, r)
      | other =>
          match parseNumber other with
          | some (i, rest) => some (Json.num i, rest)
          | none => none

/-- After an opening `\x7b`: either the empty object or a member list. -/
def parseObjBody : Nat → List Char → Option (Json × List Char)
  | 0, _ => none
  | n + 1, s =>
      match skipWs s with
      | '}' :: r => some (Json.obj [], r)
      | _ =>
          match parseMembers n s with
          | some (kvs, rest) => some (Json.obj kvs, rest)
          | none => none

/-- A non-empty `"key": value` list separated by commas, consuming the
closing `\x7d`. -/
def parseMembers : Nat → List Char → Option (List (String × Json) × List Char)
  | 0, _ => none
  | n + 1, s =>
      match skipWs s with
      | '"' :: r =>
          match parseStrAux r with
          | some (k, r2) =>
              match skipWs r2 with
              | ':' :: r3 =>
                  match parseVal n r3 with
                  | some (v, r4) =>
                      match skipWs r4 with
                      | ',' :: r5 =>
                          match parseMembers n r5 with
                          | some (tl, rest) => some ((String.mk k, v) :: tl, rest)
                          | none => none
                      | '}' :: r5 => some ([(String.mk k, v)], r5)
                      | _ => none
                  | none => none
              | _ => none
          | none => none
      | _ => none

/-- After an opening `[`: either the empty array or an element list. -/
def parseArrBody : Nat → List Char → Option (Json × List Char)
  | 0, _ => none
  | n + 1, s =>
      match skipWs s with
      | ']' :: r => some (Json.arr [], r)
      | _ =>
          match parseElems n s with
          | some (vs, rest) => some (Json.arr vs, rest)
          | none => none

/-- A non-empty value list separated by commas, consuming the closing `]`. -/
def parseElems : Nat → List Char → Option (List Json × List Char)
  | 0, _ => none
  | n + 1, s =>
      match parseVal n s with
      | some (v, r) =>
          match skipWs r with
          | ',' :: r2 =>
              match parseElems n r2 with
              | some (tl, rest) => some (v :: tl, rest)
              | none => none
          | ']' :: r2 => some ([v], r2)
          | _ => none
      | none => none

end

/-- Model of `json.loads`: whole string must be one JSON value, with
whitespace allowed around it.  The fuel `3 * length + 3` is generous:
every chain of three nested reader calls consumes at least one input
character, so no well-formed input can exhaust it. -/
def json_loads (t : String) : Option Json :=
  let cs := t.data
  match parseVal (3 * cs.length + 3) cs with
  | some (v, rest) => if skipWs rest = [] then some v else none
  | none => none

/-- The `dict.get` with Python duplicate-key semantics: `json.loads` keeps
the last value bound to a repeated key. -/
def lookupLast (kvs : List (String × Json)) (key : String) : Option Json :=
  match kvs with
  | [] => none
  | (k, v) :: tl =>
      match lookupLast tl key with
      | some w => some w
      | none => if k = key then some v else none

/-- The `data.get(key, dflt)`; `data` is always a dict on the reachable paths
(the extracted text starts with `\x7b`). -/
def jget (j : Json) (key : String) (dflt : Json) : Json :=
  match j with
  | Json.obj kvs =>
      match lookupLast kvs key with
      | some v => v
      | none => dflt
  | _ => dflt

/-! ### Prompt builder -/

/-- The `min_queries_simple` in `get_query_fanout_prompt`. -/
def min_queries_simple : Nat := 10

/-- The `min_queries_complex` in `get_query_fanout_prompt`. -/
def min_queries_complex : Nat := 20

/-- The `PROMPT_TEMPLATE_HEADER` up to the `q` placeholder. -/
def promptH1 : String :=
  "\n您正在模擬一個先進的生成式 AI 搜尋系統（如 Google 的 AI 模式）的查詢擴展（Query Fan-Out）過程。\n使用者的原始查詢是：\""

/-- The `PROMPT_TEMPLATE_HEADER` between the `q` and `mode` placeholders. -/
def promptH2 : String := "\"\n選擇的模式是：\""

/-- The `PROMPT_TEMPLATE_HEADER` between the `mode` and instruction placeholders. -/
def promptH3 : String :=
  "\"\n\n**您的第一個任務是：根據以下指示，決定要生成的查詢總數，並說明理由。**\n"

/-- The `PROMPT_TEMPLATE_HEADER` after the instruction placeholder. -/
def promptH4 : String :=
  "\n\n**在決定了數量和理由後，請精確生成該數量的、獨特的、合成的查詢。**\n在生成的查詢集合中，必須盡可能包含以下每種查詢轉換類型（如果總數允許）：\n1.  **重新表述 (Reformulations)**：用不同的方式問同一個問題。\n2.  **相關查詢 (Related Queries)**：探索與主題相關但非核心的面向。\n3.  **隱性查詢 (Implicit Queries)**：挖掘使用者沒有明說但可能想知道的背景資訊。\n4.  **比較性查詢 (Comparative Queries)**：對比不同選項的優劣。\n5.  **實體擴展 (Entity Expansions)**：深入探討查詢中提到的特定實體（人、事、物）。\n6.  **個人化查詢 (Personalized Queries)**：模擬基於使用者常見需求的查詢（例如：初學者指南、預算考量等）。\n\n每個獨立查詢的 \x27reasoning\x27 欄位，都應該解釋為什麼要生成這個特定的查詢、它的類型，以及它如何對應到使用者的整體意圖。\n請勿生成依賴即時使用者歷史紀錄或地理位置的查詢。\n\n**請嚴格按照以下格式，僅回傳一個有效的 JSON 物件：**\n"

/-- The `JSON_STRUCTURE_EXAMPLE`, verbatim. -/
def JSON_STRUCTURE_EXAMPLE : String :=
  "\n\x7b\n  \"generation_details\": \x7b\n    \"target_query_count\": 12, // 這是範例數字，您需要根據分析自行決定實際數字。\n    \"reasoning_for_count\": \"由於使用者查詢的複雜度中等，我選擇生成略多於基本數量的查詢，以涵蓋關鍵面向，例如 X、Y 和 Z。\" // 這是範例理由，請提供您自己的分析。\n  \x7d,\n  \"expanded_queries\": [\n    \x7b\n      \"query\": \"範例查詢 1...\",\n      \"type\": \"reformulation\",\n      \"user_intent\": \"範例意圖...\",\n      \"reasoning\": \"生成此查詢的具體理由...\"\n    \x7d\n  ]\n\x7d\n"

/-- The mode string of the simple mode radio button. -/
def simpleModeStr : String := "AI 概覽 (簡單)"

/-- The mode string of the complex mode radio button. -/
def complexModeStr : String := "AI 模式 (複雜)"

/-- The first two f-string pieces, shared by both mode branches. -/
def instrHead (q mode : String) : String :=
  "首先，分析使用者查詢：「" ++ q ++ "」。基於其複雜度和「" ++ mode ++ "」模式，" ++
  "**您必須決定一個最佳的查詢生成數量。** "

/-- The minimum-count sentence of the simple branch. -/
def simpleThreshold : String :=
  "這個數字**至少需要是 " ++ toString min_queries_simple ++ "**。 "

/-- The minimum-count sentence of the complex branch. -/
def complexThreshold : String :=
  "這個數字**至少需要是 " ++ toString min_queries_complex ++ "**。 "

/-- The remaining f-string pieces of the simple branch. -/
def simpleInstrTail : String :=
  "對於一個直接的查詢，生成約 " ++ toString min_queries_simple ++ "-" ++
    toString (min_queries_simple + 2) ++ " 個查詢可能就足夠了。 " ++
  "如果查詢包含幾個不同面向或常見的後續問題，目標可以設定在 " ++
    toString (min_queries_simple + 3) ++ "-" ++ toString (min_queries_simple + 5) ++
    " 個查詢。" ++
  "請簡要說明您選擇這個特定數字的理由。查詢本身應範圍明確且高度相關。"

/-- The remaining f-string pieces of the complex branch. -/
def complexInstrTail : String :=
  "對於需要從多角度、子主題、比較或更深層含義進行探索的多面向查詢，" ++
  "您應該生成更全面的集合，可能達到 " ++ toString (min_queries_complex + 5) ++ "-" ++
    toString (min_queries_complex + 10) ++
    " 個查詢，如果查詢特別廣泛或深入，甚至可以更多。" ++
  "請簡要說明您選擇這個特定數字的理由。查詢應具備多樣性和深度。"

/-- The `num_queries_instruction` for the simple mode (the f-string chain). -/
def simpleInstr (q mode : String) : String :=
  instrHead q mode ++ simpleThreshold ++ simpleInstrTail

/-- The `num_queries_instruction` for the complex mode (the f-string chain). -/
def complexInstr (q mode : String) : String :=
  instrHead q mode ++ complexThreshold ++ complexInstrTail

/-- The `get_query_fanout_prompt(q, mode)`: the header template with the
placeholders substituted, followed by the JSON structure example. -/
def get_query_fanout_prompt (q mode : String) : String :=
  let num_queries_instruction :=
    if mode = simpleModeStr then simpleInstr q mode else complexInstr q mode
  promptH1 ++ q ++ promptH2 ++ mode ++ promptH3 ++ num_queries_instruction ++
    promptH4 ++ JSON_STRUCTURE_EXAMPLE

/-! ### The response interpreter and the run handler -/

/-- The user-visible failure modes of a run. -/
inductive FanoutError where
  | noJsonFound (raw : String) : FanoutError
  | malformedJson (jsonText : String) : FanoutError

/-- What a call to `generate_fanout` produces: its return value, the new
`st.session_state.generation_details`, and the error it displayed. -/
structure GenOut where
  ret : Option Json
  details : Option Json
  err : Option FanoutError

/-- The body of `generate_fanout` from `raw_text = response.text.strip()`
onwards, as a function of the response text and the session details that
were current when it ran. -/
def interpretResponse (responseText : String) (details0 : Option Json) : GenOut :=
  let raw := pyStrip responseText
  match searchBrace raw.data with
  | none => ⟨none, details0, some (FanoutError.noJsonFound raw)⟩
  | some cs =>
      let json_text := String.mk cs
      match json_loads json_text with
      | none => ⟨none, none, some (FanoutError.malformedJson json_text)⟩
      | some data =>
          ⟨some (jget data "expanded_queries" (Json.arr [])),
           some (jget data "generation_details" (Json.obj [])),
           none⟩

/-- The `generate_fanout(query, mode)`: build the prompt, call the model
(an oracle `model : prompt ↦ response text`), interpret the response. -/
def generate_fanout (query mode : String) (model : String → String)
    (details0 : Option Json) : GenOut :=
  interpretResponse (model (get_query_fanout_prompt query mode)) details0

/-- The two session-state slots used by the app. -/
structure Session where
  generation_details : Option Json
  results : Option Json

/-- Observable outcome of pressing the run button. -/
structure RunOutcome where
  session : Session
  warned : Bool
  modelCalled : Bool

/-- The run-button handler: clear both session slots, then either warn on
a blank query (without calling the model) or run `generate_fanout`. -/
def runButton (prev : Session) (user_query mode : String)
    (model : String → String) : RunOutcome :=
  let cleared : Session := ⟨none, none⟩
  if (pyStrip user_query).isEmpty then
    ⟨cleared, true, false⟩
  else
    let out := generate_fanout user_query mode model cleared.generation_details
    ⟨⟨out.details, out.ret⟩, false, true⟩

/-! ### Result display -/

/-- Python truthiness of a decoded JSON value. -/
def pyTruthy : Json → Bool
  | Json.null => false
  | Json.bool b => b
  | Json.num n => n != 0
  | Json.str s => !s.isEmpty
  | Json.arr l => !l.isEmpty
  | Json.obj kvs => !kvs.isEmpty

/-- The three top-level display dispositions of the main page. -/
inductive ViewBranch where
  | showResults (results : Json) : ViewBranch
  | emptyWarning : ViewBranch
  | idle : ViewBranch

/-- The `if st.session_state.results: ... elif ... is not None: ...`
dispatch at the bottom of the script. -/
def mainBranch (results : Option Json) : ViewBranch :=
  match results with
  | some r => if pyTruthy r then ViewBranch.showResults r else ViewBranch.emptyWarning
  | none => ViewBranch.idle

/-- What the generation-plan expander shows. -/
structure PlanDisplay where
  targetShown : Json
  reasoningShown : Json
  actualShown : Nat
  mismatchWarned : Bool

/-- The generation-plan panel: `details.get` look-ups, the actual count,
and the `isinstance(target, int) and target != generated_count` warning
(Python `bool` is a subclass of `int`). -/
def planDisplay (details : Json) (results : List Json) : PlanDisplay :=
  let target := jget details "target_query_count" (Json.str "N/A")
  { targetShown := target
    reasoningShown := jget details "reasoning_for_count" (Json.str "模型未提供")
    actualShown := results.length
    mismatchWarned :=
      match target with
      | Json.num tc => tc != (results.length : Int)
      | Json.bool b => (if b then (1 : Int) else 0) != (results.length : Int)
      | _ => false }

/-- The `dict` key list: insertion order, a repeated key keeps its first
position (`json.loads` keeps its last value, see `lookupLast`). -/
def pyDictKeys : List (String × Json) → List String
  | [] => []
  | (k, _) :: tl => k :: (pyDictKeys tl).filter (fun k2 => k2 != k)

/-- Keys contributed by one record to the `DataFrame` columns. -/
def recordKeys : Json → List String
  | Json.obj kvs => pyDictKeys kvs
  | _ => []

/-- The `pd.DataFrame(records)` column order: union of the record keys in
order of first appearance. -/
def dfColumns (records : List Json) : List String :=
  records.foldl (fun acc r => acc ++ (recordKeys r).filter (fun k => !(acc.contains k))) []

/-- The fixed column selection of the display step. -/
def REQUIRED_COLS : List String := ["query", "type", "user_intent", "reasoning"]

/-- Field look-up in a record; `none` is the NaN cell of a missing field. -/
def jlookup (r : Json) (key : String) : Option Json :=
  match r with
  | Json.obj kvs => lookupLast kvs key
  | _ => none

/-- The `df = df[REQUIRED_COLS]`: reindex to the four fixed columns; pandas
raises `KeyError` (here `none`) when a requested column is absent. -/
def selectCols (records : List Json) : Option (List (List (Option Json))) :=
  if REQUIRED_COLS.all (fun c => (dfColumns records).contains c) then
    some (records.map (fun r => REQUIRED_COLS.map (fun c => jlookup r c)))
  else none

/-- Text of one CSV cell: NaN and `None` print empty, strings print
as-is, numbers and booleans in Python style.  Nested list/dict cells
(outside every claim) are given a fixed marker text. -/
def csvCellText : Option Json → String
  | none => ""
  | some Json.null => ""
  | some (Json.bool b) => if b then "True" else "False"
  | some (Json.num n) => toString n
  | some (Json.str s) => s
  | some (Json.arr _) => "[…]"
  | some (Json.obj _) => "\x7b…\x7d"

/-- CSV minimal quoting: quote a field containing comma, quote, CR or
LF, doubling the inner quotes. -/
def csvField (s : String) : String :=
  if s.data.any (fun c => c = ',' || c = '"' || c = '\n' || c = '\r') then
    "\"" ++ String.mk (s.data.flatMap (fun c => if c = '"' then ['"', '"'] else [c])) ++ "\""
  else s

/-- Concatenation of a list of strings. -/
def strConcat : List String → String
  | [] => ""
  | s :: tl => s ++ strConcat tl

/-- Comma-style interposition of a separator. -/
def strIntercalate (sep : String) : List String → String
  | [] => ""
  | [s] => s
  | s :: s2 :: tl => s ++ sep ++ strIntercalate sep (s2 :: tl)

/-- One CSV row, `\n`-terminated. -/
def csvRow (cells : List String) : String :=
  strIntercalate "," cells ++ "\n"

/-- The `df.to_csv(index=False)` on the selected table: header row then one
row per record. -/
def to_csv (table : List (List (Option Json))) : String :=
  csvRow (REQUIRED_COLS.map csvField) ++
    strConcat (table.map (fun row => csvRow (row.map (fun cell => csvField (csvCellText cell)))))

/-! ### Well-formed schema instances and their canonical JSON text -/

/-- One record of `expanded_queries`. -/
structure ExpandedQuery where
  query : String
  type : String
  user_intent : String
  reasoning : String

/-- A well-formed instance of the documented response schema. -/
structure FanoutInstance where
  target_query_count : Int
  reasoning_for_count : String
  expanded_queries : List ExpandedQuery

/-- Hexadecimal digit character (lowercase). -/
def hexDigitChar (n : Nat) : Char :=
  if n < 10 then Char.ofNat (48 + n) else Char.ofNat (87 + n)

/-- JSON escaping of one character: quote and backslash get a backslash
escape, control characters a `\u00XX` escape. -/
def escapeChar (c : Char) : List Char :=
  if c = '"' then ['\\', '"']
  else if c = '\\' then ['\\', '\\']
  else if c.toNat < 32 then
    ['\\', 'u', '0', '0', hexDigitChar (c.toNat / 16), hexDigitChar (c.toNat % 16)]
  else [c]

/-- Canonical JSON text of a string. -/
def renderStrL (s : String) : List Char :=
  '"' :: (s.data.flatMap escapeChar ++ ['"'])

/-- Decimal digit character. -/
def digitChar (n : Nat) : Char := Char.ofNat (48 + n)

/-- Canonical decimal text of a natural number. -/
def renderNatL (n : Nat) : List Char :=
  if n = 0 then ['0'] else ((Nat.digits 10 n).map digitChar).reverse

/-- Canonical JSON text of an integer. -/
def renderIntL (i : Int) : List Char :=
  if i < 0 then '-' :: renderNatL (-i).toNat else renderNatL i.toNat

/-- Canonical JSON text of one query record. -/
def renderQueryL (q : ExpandedQuery) : List Char :=
  "\x7b\"query\":".data ++ renderStrL q.query ++
  ",\"type\":".data ++ renderStrL q.type ++
  ",\"user_intent\":".data ++ renderStrL q.user_intent ++
  ",\"reasoning\":".data ++ renderStrL q.reasoning ++ "\x7d".data

/-- Canonical comma-separated JSON text of the record list. -/
def renderQueriesL : List ExpandedQuery → List Char
  | [] => []
  | [q] => renderQueryL q
  | q :: q2 :: tl => renderQueryL q ++ ',' :: renderQueriesL (q2 :: tl)

/-- Canonical JSON text of a whole schema instance. -/
def renderInstanceL (inst : FanoutInstance) : List Char :=
  "\x7b\"generation_details\":\x7b\"target_query_count\":".data ++
  renderIntL inst.target_query_count ++
  ",\"reasoning_for_count\":".data ++ renderStrL inst.reasoning_for_count ++
  "\x7d,\"expanded_queries\":[".data ++ renderQueriesL inst.expanded_queries ++
  "]\x7d".data

/-- Canonical JSON text of a schema instance, as a string. -/
def renderInstance (inst : FanoutInstance) : String :=
  String.mk (renderInstanceL inst)

/-- The decoded value a faithful JSON reader must produce for one record. -/
def queryJson (q : ExpandedQuery) : Json :=
  Json.obj [("query", Json.str q.query), ("type", Json.str q.type),
            ("user_intent", Json.str q.user_intent), ("reasoning", Json.str q.reasoning)]

/-- The decoded value of the `generation_details` member. -/
def detailsJson (inst : FanoutInstance) : Json :=
  Json.obj [("target_query_count", Json.num inst.target_query_count),
            ("reasoning_for_count", Json.str inst.reasoning_for_count)]

/-- The decoded value of a whole schema instance. -/
def instanceJson (inst : FanoutInstance) : Json :=
  Json.obj [("generation_details", detailsJson inst),
            ("expanded_queries", Json.arr (inst.expanded_queries.map queryJson))]

/-! ### Helper lemmas -/

/-- Unfolding of `parseStrAux` on a cons cell. -/
theorem parseStrAux_cons (c : Char) (cs : List Char) :
    parseStrAux (c :: cs) =
      (if c = '"' then some ([], cs)
      else if c = '\\' then
        match cs with
        | [] => none
        | e :: cs2 =>
            if e = 'u' then
              match cs2 with
              | h1 :: h2 :: h3 :: h4 :: cs3 =>
                  match hexVal h1, hexVal h2, hexVal h3, hexVal h4 with
                  | some d1, some d2, some d3, some d4 =>
                      match parseStrAux cs3 with
                      | some (t, r) =>
                          some (Char.ofNat (((d1 * 16 + d2) * 16 + d3) * 16 + d4) :: t, r)
                      | none => none
                  | _, _, _, _ => none
              | _ => none
            else
              match escChar e with
              | some d =>
                  match parseStrAux cs2 with
                  | some (t, r) => some (d :: t, r)
                  | none => none
              | none => none
      else if c.toNat < 32 then none
      else
        match parseStrAux cs with
        | some (t, r) => some (c :: t, r)
        | none => none) := by
  rw [parseStrAux.eq_def]

/-- Digit characters decode back to their value and are decimal digits. -/
theorem digitChar_facts : ∀ d : Nat, d < 10 →
    (digitChar d).isDigit = true ∧ (digitChar d).toNat = 48 + d ∧
    ¬digitChar d = '-' ∧ isJsonWs (digitChar d) = false ∧
    ¬digitChar d = '"' ∧ ¬digitChar d = '\\' ∧ ¬(digitChar d).toNat < 32 := by
  decide

/-- Hexadecimal digit characters decode back to their value. -/
theorem hexVal_hexDigitChar : ∀ d : Nat, d < 16 → hexVal (hexDigitChar d) = some d := by
  decide

/-- A run of plain characters (no quote, backslash or control character)
scans to itself. -/
theorem parseStrAux_plain (k : List Char) (z : List Char)
    (h : ∀ c ∈ k, ¬c = '"' ∧ ¬c = '\\' ∧ ¬c.toNat < 32) :
    parseStrAux (k ++ '"' :: z) = some (k, z) := by
  induction k with
  | nil => simp [parseStrAux_cons]
  | cons c cs ih =>
      obtain ⟨h1, h2, h3⟩ := h c (List.mem_cons_self c cs)
      rw [List.cons_append, parseStrAux_cons, if_neg h1, if_neg h2, if_neg (by simpa using h3),
        ih (fun x hx => h x (List.mem_cons_of_mem c hx))]

/-- JSON escaping round-trips through the string scanner. -/
theorem parseStrAux_escaped (s : List Char) (z : List Char) :
    parseStrAux (s.flatMap escapeChar ++ '"' :: z) = some (s, z) := by
  induction s with
  | nil => simp [parseStrAux_cons]
  | cons c cs ih =>
      rw [List.flatMap_cons, List.append_assoc]
      by_cases h1 : c = '"'
      · subst h1
        rw [show escapeChar '"' = ['\\', '"'] from rfl]
        simp [parseStrAux_cons, escChar, ih]
      · by_cases h2 : c = '\\'
        · subst h2
          rw [show escapeChar '\\' = ['\\', '\\'] from rfl]
          simp [parseStrAux_cons, escChar, ih]
        · by_cases h3 : c.toNat < 32
          · have he : escapeChar c =
                ['\\', 'u', '0', '0', hexDigitChar (c.toNat / 16), hexDigitChar (c.toNat % 16)] := by
              simp [escapeChar, h1, h2, h3]
            have hx1 : hexVal (hexDigitChar (c.toNat / 16)) = some (c.toNat / 16) :=
              hexVal_hexDigitChar _ (by omega)
            have hx2 : hexVal (hexDigitChar (c.toNat % 16)) = some (c.toNat % 16) :=
              hexVal_hexDigitChar _ (by omega)
            simp only [he, List.cons_append, List.nil_append]
            rw [parseStrAux_cons]
            simp only [show ¬('\\' : Char) = '"' from by decide, if_false, if_pos rfl,
              if_true, hx1, hx2, show hexVal '0' = some 0 from rfl, ih]
            have hmod : ((0 * 16 + 0) * 16 + c.toNat / 16) * 16 + c.toNat % 16 = c.toNat := by
              have := Nat.div_add_mod c.toNat 16
              omega
            rw [hmod, Char.ofNat_toNat]
          · rw [show escapeChar c = [c] from by simp [escapeChar, h1, h2, h3]]
            rw [List.cons_append, List.nil_append, parseStrAux_cons, if_neg h1, if_neg h2,
              if_neg (by simpa using h3), ih]

/-- The `takeWhile`/`dropWhile` on a satisfying run followed by a failing
element. -/
theorem takeWhile_all_append {α : Type} (p : α → Bool) (l : List α)
    (hl : ∀ x ∈ l, p x = true) (c : α) (hc : p c = false) (r : List α) :
    (l ++ c :: r).takeWhile p = l ∧ (l ++ c :: r).dropWhile p = c :: r := by
  induction l with
  | nil => simp [List.takeWhile_cons, List.dropWhile_cons, hc]
  | cons x xs ih =>
      have hx := hl x (List.mem_cons_self x xs)
      have := ih (fun y hy => hl y (List.mem_cons_of_mem x hy))
      simp [List.takeWhile_cons, List.dropWhile_cons, hx, this.1, this.2]

/-- Every character of a rendered natural number is a decimal digit. -/
theorem renderNatL_digits (n : Nat) : ∀ x ∈ renderNatL n, x.isDigit = true := by
  intro x hx
  rw [renderNatL] at hx
  by_cases h : n = 0
  · rw [if_pos h] at hx
    simp at hx
    subst hx; decide
  · rw [if_neg h] at hx
    rw [List.mem_reverse, List.mem_map] at hx
    obtain ⟨d, hd, hdx⟩ := hx
    have : d < 10 := Nat.digits_lt_base (by omega) hd
    exact hdx ▸ (digitChar_facts d this).1

/-- A rendered natural number is never the empty string. -/
theorem renderNatL_ne_nil (n : Nat) : renderNatL n ≠ [] := by
  rw [renderNatL]
  by_cases h : n = 0
  · rw [if_pos h]; simp
  · rw [if_neg h]
    simp [Nat.digits_ne_nil_iff_ne_zero, h]

/-- Horner evaluation of the reversed digit rendering. -/
theorem foldl_digitChar_reverse (L : List Nat) (hL : ∀ d ∈ L, d < 10) (a : Nat) :
    ((L.map digitChar).reverse).foldl (fun acc ch => 10 * acc + (ch.toNat - 48)) a =
      Nat.ofDigits 10 L + a * 10 ^ L.length := by
  induction L generalizing a with
  | nil => simp [Nat.ofDigits_nil]
  | cons d tl ih =>
      have hd : d < 10 := hL d (List.mem_cons_self d tl)
      have htl : ∀ x ∈ tl, x < 10 := fun x hx => hL x (List.mem_cons_of_mem d hx)
      rw [List.map_cons, List.reverse_cons, List.foldl_append, ih htl a]
      simp only [List.foldl_cons, List.foldl_nil, Nat.ofDigits_cons, List.length_cons]
      rw [(digitChar_facts d hd).2.1]
      ring_nf
      omega

/-- The digit fold recovers the rendered natural number. -/
theorem foldl_renderNatL (n : Nat) :
    (renderNatL n).foldl (fun acc ch => 10 * acc + (ch.toNat - 48)) 0 = n := by
  rw [renderNatL]
  by_cases h : n = 0
  · rw [if_pos h]; subst h; decide
  · rw [if_neg h]
    rw [foldl_digitChar_reverse (Nat.digits 10 n) (fun d hd => Nat.digits_lt_base (by omega) hd) 0]
    simp [Nat.ofDigits_digits]

/-- The `parseNatNum` recovers a rendered natural number. -/
theorem parseNatNum_render (n : Nat) (c : Char) (r : List Char)
    (hc : c.isDigit = false) :
    parseNatNum (renderNatL n ++ c :: r) = some (n, c :: r) := by
  have h := takeWhile_all_append (fun ch => ch.isDigit) (renderNatL n)
    (fun x hx => renderNatL_digits n x hx) c hc r
  rw [parseNatNum]
  simp only [h.1, h.2]
  rw [if_neg (by simpa using renderNatL_ne_nil n), foldl_renderNatL]

/-- The rendered natural number starts with a digit character. -/
theorem renderNatL_shape (n : Nat) :
    ∃ d tl, d < 10 ∧ renderNatL n = digitChar d :: tl := by
  by_cases h : n = 0
  · subst h
    exact ⟨0, [], by omega, rfl⟩
  · cases hsh : renderNatL n with
    | nil => exact absurd hsh (renderNatL_ne_nil n)
    | cons x tl =>
        have hx : x ∈ renderNatL n := by rw [hsh]; exact List.mem_cons_self x tl
        rw [renderNatL, if_neg h, List.mem_reverse, List.mem_map] at hx
        obtain ⟨d, hd, hdx⟩ := hx
        exact ⟨d, tl, Nat.digits_lt_base (by omega) hd, by rw [hdx]⟩

/-- The `parseNumber` recovers a rendered integer. -/
theorem parseNumber_render (i : Int) (c : Char) (r : List Char)
    (hc : c.isDigit = false) :
    parseNumber (renderIntL i ++ c :: r) = some (i, c :: r) := by
  rw [renderIntL]
  by_cases h : i < 0
  · rw [if_pos h, List.cons_append, parseNumber, if_pos rfl,
      parseNatNum_render (-i).toNat c r hc]
    simp only [Option.map_some']
    congr 2
    omega
  · rw [if_neg h]
    obtain ⟨d, tl, hd, hsh⟩ := renderNatL_shape i.toNat
    rw [hsh, List.cons_append, parseNumber,
      if_neg ((digitChar_facts d hd).2.2.1), ← List.cons_append, ← hsh,
      parseNatNum_render i.toNat c r hc]
    simp only [Option.map_some']
    congr 2
    omega

/-- The `skipWs` is the identity on a non-whitespace head. -/
theorem skipWs_not_ws (c : Char) (w : List Char) (h : isJsonWs c = false) :
    skipWs (c :: w) = c :: w := by
  simp [skipWs, List.dropWhile_cons, h]

/-- The `parseVal` step on an object opener. -/
theorem parseVal_open (n : Nat) (w : List Char) :
    parseVal (n + 1) ('{' :: w) = parseObjBody n w := rfl

/-- The `parseVal` step on an array opener. -/
theorem parseVal_bracket (n : Nat) (w : List Char) :
    parseVal (n + 1) ('[' :: w) = parseArrBody n w := rfl

/-- The `parseVal` step on a string opener. -/
theorem parseVal_quote (n : Nat) (w : List Char) :
    parseVal (n + 1) ('"' :: w) =
      match parseStrAux w with
      | some (cs, rest) => some (Json.str (String.mk cs), rest)
      | none => none := rfl

/-- The `parseObjBody` step on a key opener. -/
theorem parseObjBody_quote (n : Nat) (w : List Char) :
    parseObjBody (n + 1) ('"' :: w) =
      match parseMembers n ('"' :: w) with
      | some (kvs, rest) => some (Json.obj kvs, rest)
      | none => none := rfl

/-- The `parseArrBody` step on an immediate close: the empty array. -/
theorem parseArrBody_close (n : Nat) (w : List Char) :
    parseArrBody (n + 1) (']' :: w) = some (Json.arr [], w) := rfl

/-- The `parseArrBody` step on an element list starting with a record. -/
theorem parseArrBody_open (n : Nat) (w : List Char) :
    parseArrBody (n + 1) ('{' :: w) =
      match parseElems n ('{' :: w) with
      | some (vs, rest) => some (Json.arr vs, rest)
      | none => none := rfl

/-- The `parseMembers` step on a key opener. -/
theorem parseMembers_quote (n : Nat) (w : List Char) :
    parseMembers (n + 1) ('"' :: w) =
      match parseStrAux w with
      | some (k, r2) =>
          match skipWs r2 with
          | ':' :: r3 =>
              match parseVal n r3 with
              | some (v, r4) =>
                  match skipWs r4 with
                  | ',' :: r5 =>
                      match parseMembers n r5 with
                      | some (tl, rest) => some ((String.mk k, v) :: tl, rest)
                      | none => none
                  | '}' :: r5 => some ([(String.mk k, v)], r5)
                  | _ => none
              | none => none
          | _ => none
      | none => none := rfl

/-- The `parseElems` unfolding. -/
theorem parseElems_succ (n : Nat) (s : List Char) :
    parseElems (n + 1) s =
      match parseVal n s with
      | some (v, r) =>
          match skipWs r with
          | ',' :: r2 =>
              match parseElems n r2 with
              | some (tl, rest) => some (v :: tl, rest)
              | none => none
          | ']' :: r2 => some ([v], r2)
          | _ => none
      | none => none := rfl

/-- One `"key": value` member whose key needs no escaping. -/
theorem parseMembers_key (n : Nat) (k : List Char)
    (hk : ∀ c ∈ k, ¬c = '"' ∧ ¬c = '\\' ∧ ¬c.toNat < 32) (w : List Char) :
    parseMembers (n + 1) ('"' :: (k ++ '"' :: ':' :: w)) =
      match parseVal n w with
      | some (v, r4) =>
          match skipWs r4 with
          | ',' :: r5 =>
              match parseMembers n r5 with
              | some (tl, rest) => some ((String.mk k, v) :: tl, rest)
              | none => none
          | '}' :: r5 => some ([(String.mk k, v)], r5)
          | _ => none
      | none => none := by
  rw [parseMembers_quote, parseStrAux_plain k _ hk]
  rfl

/-- The `parseVal` recovers a rendered string value. -/
theorem parseVal_renderStr (n : Nat) (v : String) (rest : List Char) :
    parseVal (n + 1) (renderStrL v ++ rest) = some (Json.str v, rest) := by
  rw [renderStrL, List.cons_append, parseVal_quote, List.append_assoc,
    List.singleton_append, parseStrAux_escaped]

/-- The `parseVal` dispatches a digit-headed input to the number reader. -/
theorem parseVal_digit_dispatch (d : Nat) (hd : d < 10) (m : Nat) (X : List Char) :
    parseVal (m + 1) (digitChar d :: X) =
      match parseNumber (digitChar d :: X) with
      | some (p, r) => some (Json.num p, r)
      | none => none := by
  interval_cases d <;> rfl

/-- The `parseVal` recovers a rendered integer value. -/
theorem parseVal_renderInt (n : Nat) (i : Int) (c : Char) (w : List Char)
    (hc : c.isDigit = false) :
    parseVal (n + 1) (renderIntL i ++ c :: w) = some (Json.num i, c :: w) := by
  have hnum := parseNumber_render i c w hc
  by_cases h : i < 0
  · have hsh : renderIntL i = '-' :: renderNatL (-i).toNat := by rw [renderIntL, if_pos h]
    rw [hsh, List.cons_append] at hnum ⊢
    rw [show ∀ X : List Char, parseVal (n + 1) ('-' :: X) =
        (match parseNumber ('-' :: X) with
         | some (p, r) => some (Json.num p, r)
         | none => none) from fun X => rfl]
    rw [hnum]
  · obtain ⟨d, tl, hd, hsh0⟩ := renderNatL_shape i.toNat
    have hsh : renderIntL i = digitChar d :: tl := by rw [renderIntL, if_neg h, hsh0]
    rw [hsh, List.cons_append] at hnum ⊢
    rw [parseVal_digit_dispatch d hd, hnum]

/-- The `parseVal` recovers a rendered query record. -/
theorem parseVal_record (n : Nat) (q : ExpandedQuery) (rest : List Char) :
    parseVal (n + 8) (renderQueryL q ++ rest) = some (queryJson q, rest) := by
  have hkq : ∀ c ∈ ("query" : String).data, ¬c = '"' ∧ ¬c = '\\' ∧ ¬c.toNat < 32 := by decide
  have hkt : ∀ c ∈ ("type" : String).data, ¬c = '"' ∧ ¬c = '\\' ∧ ¬c.toNat < 32 := by decide
  have hku : ∀ c ∈ ("user_intent" : String).data, ¬c = '"' ∧ ¬c = '\\' ∧ ¬c.toNat < 32 := by
    decide
  have hkr : ∀ c ∈ ("reasoning" : String).data, ¬c = '"' ∧ ¬c = '\\' ∧ ¬c.toNat < 32 := by
    decide
  have sComma : ∀ X : List Char, skipWs (',' :: X) = ',' :: X := fun X => rfl
  have sBrace : ∀ X : List Char, skipWs ('}' :: X) = '}' :: X := fun X => rfl
  have e1 : renderQueryL q ++ rest =
      '{' :: '"' :: ("query".data ++ '"' :: ':' :: (renderStrL q.query ++
        ',' :: '"' :: ("type".data ++ '"' :: ':' :: (renderStrL q.type ++
          ',' :: '"' :: ("user_intent".data ++ '"' :: ':' :: (renderStrL q.user_intent ++
            ',' :: '"' :: ("reasoning".data ++ '"' :: ':' ::
              (renderStrL q.reasoning ++ '}' :: rest)))))))) := by
    rw [renderQueryL,
      show ("\x7b\"query\":" : String).data = '{' :: '"' :: ("query".data ++ ['"', ':'])
        from rfl,
      show ((",\"type\":" : String)).data = ',' :: '"' :: ("type".data ++ ['"', ':'])
        from rfl,
      show ((",\"user_intent\":" : String)).data =
        ',' :: '"' :: ("user_intent".data ++ ['"', ':']) from rfl,
      show ((",\"reasoning\":" : String)).data =
        ',' :: '"' :: ("reasoning".data ++ ['"', ':']) from rfl,
      show (("\x7d" : String)).data = ['}'] from rfl]
    simp only [List.append_assoc, List.cons_append, List.singleton_append, List.nil_append]
  rw [e1, parseVal_open, parseObjBody_quote, parseMembers_key _ _ hkq, parseVal_renderStr]
  simp only [sComma]
  rw [parseMembers_key _ _ hkt, parseVal_renderStr]
  simp only [sComma]
  rw [parseMembers_key _ _ hku, parseVal_renderStr]
  simp only [sComma]
  rw [parseMembers_key _ _ hkr, parseVal_renderStr]
  simp only [sBrace]
  rfl

/-- The `parseElems` recovers a rendered non-empty record list. -/
theorem parseElems_render (qs : List ExpandedQuery) : ∀ (q : ExpandedQuery) (n : Nat)
    (rest : List Char),
    parseElems (n + 9 + 10 * qs.length) (renderQueriesL (q :: qs) ++ ']' :: rest) =
      some ((q :: qs).map queryJson, rest) := by
  induction qs with
  | nil =>
      intro q n rest
      rw [show renderQueriesL [q] = renderQueryL q from rfl,
        show n + 9 + 10 * ([] : List ExpandedQuery).length = (n + 8) + 1 from by simp,
        parseElems_succ, parseVal_record]
      rfl
  | cons q2 tl ih =>
      intro q n rest
      rw [show renderQueriesL (q :: q2 :: tl) =
          renderQueryL q ++ ',' :: renderQueriesL (q2 :: tl) from rfl,
        show n + 9 + 10 * (q2 :: tl).length = (n + 10 * tl.length + 18) + 1 from by
          simp only [List.length_cons]; omega,
        parseElems_succ, List.append_assoc, List.cons_append, parseVal_record]
      have sComma : ∀ X : List Char, skipWs (',' :: X) = ',' :: X := fun X => rfl
      simp only [sComma]
      rw [show n + 10 * tl.length + 18 = (n + 9) + 9 + 10 * tl.length from by omega,
        ih q2 (n + 9) rest]
      rfl

/-- The `parseArrBody` step on a non-`]` head, keeping the input abstract. -/
theorem parseArrBody_nonclose (n : Nat) (s : List Char) (w : List Char)
    (hs : s = '{' :: w) :
    parseArrBody (n + 1) s =
      match parseElems n s with
      | some (vs, rest) => some (Json.arr vs, rest)
      | none => none := by
  subst hs
  exact parseArrBody_open n w

/-- The `parseArrBody` recovers a rendered record list (possibly empty). -/
theorem parseArrBody_renderQueries (qs : List ExpandedQuery) (m : Nat) (rest : List Char) :
    parseArrBody (m + 8 + 10 * qs.length) (renderQueriesL qs ++ ']' :: rest) =
      some (Json.arr (qs.map queryJson), rest) := by
  cases qs with
  | nil =>
      rw [show renderQueriesL [] = ([] : List Char) from rfl, List.nil_append,
        show m + 8 + 10 * ([] : List ExpandedQuery).length = (m + 7) + 1 from by simp,
        parseArrBody_close]
      rfl
  | cons q tl =>
      have hq : ∃ w0, renderQueryL q = '{' :: w0 := ⟨_, rfl⟩
      obtain ⟨w0, hw⟩ := hq
      have hshape : ∃ u, renderQueriesL (q :: tl) ++ ']' :: rest = '{' :: u := by
        cases tl with
        | nil =>
            exact ⟨w0 ++ ']' :: rest, by
              rw [show renderQueriesL [q] = renderQueryL q from rfl, hw]; rfl⟩
        | cons q2 tl2 =>
            exact ⟨w0 ++ ',' :: renderQueriesL (q2 :: tl2) ++ ']' :: rest, by
              rw [show renderQueriesL (q :: q2 :: tl2) =
                renderQueryL q ++ ',' :: renderQueriesL (q2 :: tl2) from rfl, hw]
              simp [List.append_assoc]⟩
      obtain ⟨u, hu⟩ := hshape
      rw [show m + 8 + 10 * (q :: tl).length = (m + 10 * tl.length + 17) + 1 from by
          simp only [List.length_cons]; omega,
        parseArrBody_nonclose _ _ u hu,
        show m + 10 * tl.length + 17 = (m + 8) + 9 + 10 * tl.length from by omega,
        parseElems_render tl q (m + 8) rest]

/-- The `parseVal` recovers a rendered `generation_details` object. -/
theorem parseVal_renderDetails (m : Nat) (tqc : Int) (rfc : String) (Y : List Char) :
    parseVal (m + 5) ('{' :: '"' :: ("target_query_count".data ++ '"' :: ':' ::
      (renderIntL tqc ++ ',' :: '"' :: ("reasoning_for_count".data ++ '"' :: ':' ::
        (renderStrL rfc ++ '}' :: Y))))) =
      some (Json.obj [("target_query_count", Json.num tqc),
                      ("reasoning_for_count", Json.str rfc)], Y) := by
  have hktc : ∀ c ∈ ("target_query_count" : String).data,
      ¬c = '"' ∧ ¬c = '\\' ∧ ¬c.toNat < 32 := by decide
  have hkrc : ∀ c ∈ ("reasoning_for_count" : String).data,
      ¬c = '"' ∧ ¬c = '\\' ∧ ¬c.toNat < 32 := by decide
  have sComma : ∀ X : List Char, skipWs (',' :: X) = ',' :: X := fun X => rfl
  have sBrace : ∀ X : List Char, skipWs ('}' :: X) = '}' :: X := fun X => rfl
  rw [parseVal_open, parseObjBody_quote, parseMembers_key _ _ hktc,
    parseVal_renderInt _ _ _ _ (by decide)]
  simp only [sComma]
  rw [parseMembers_key _ _ hkrc, parseVal_renderStr]
  simp only [sBrace]

/-- The `parseVal` recovers a whole rendered schema instance. -/
theorem parseVal_renderInstance (inst : FanoutInstance) (n : Nat) (rest : List Char) :
    parseVal (n + 13 + 10 * inst.expanded_queries.length)
      (renderInstanceL inst ++ rest) = some (instanceJson inst, rest) := by
  have hkg : ∀ c ∈ ("generation_details" : String).data,
      ¬c = '"' ∧ ¬c = '\\' ∧ ¬c.toNat < 32 := by decide
  have hke : ∀ c ∈ ("expanded_queries" : String).data,
      ¬c = '"' ∧ ¬c = '\\' ∧ ¬c.toNat < 32 := by decide
  have sComma : ∀ X : List Char, skipWs (',' :: X) = ',' :: X := fun X => rfl
  have sBrace : ∀ X : List Char, skipWs ('}' :: X) = '}' :: X := fun X => rfl
  have e1 : renderInstanceL inst ++ rest =
      '{' :: '"' :: ("generation_details".data ++ '"' :: ':' ::
        ('{' :: '"' :: ("target_query_count".data ++ '"' :: ':' ::
          (renderIntL inst.target_query_count ++
            ',' :: '"' :: ("reasoning_for_count".data ++ '"' :: ':' ::
              (renderStrL inst.reasoning_for_count ++
                '}' :: ',' :: '"' :: ("expanded_queries".data ++ '"' :: ':' ::
                  ('[' :: (renderQueriesL inst.expanded_queries ++
                    ']' :: '}' :: rest))))))))) := by
    rw [renderInstanceL,
      show ("\x7b\"generation_details\":\x7b\"target_query_count\":" : String).data =
        '{' :: '"' :: ("generation_details".data ++ '"' :: ':' ::
          ('{' :: '"' :: ("target_query_count".data ++ ['"', ':']))) from rfl,
      show ((",\"reasoning_for_count\":" : String)).data =
        ',' :: '"' :: ("reasoning_for_count".data ++ ['"', ':']) from rfl,
      show (("\x7d,\"expanded_queries\":[" : String)).data =
        '}' :: ',' :: '"' :: ("expanded_queries".data ++ ['"', ':', '[']) from rfl,
      show (("]\x7d" : String)).data = [']', '}'] from rfl]
    simp only [List.append_assoc, List.cons_append, List.singleton_append, List.nil_append]
  rw [e1,
    show n + 13 + 10 * inst.expanded_queries.length =
      n + 10 * inst.expanded_queries.length + 13 from by omega,
    parseVal_open, parseObjBody_quote, parseMembers_key _ _ hkg, parseVal_renderDetails]
  simp only [sComma]
  rw [parseMembers_key _ _ hke, parseVal_bracket,
    show n + 10 * inst.expanded_queries.length + 8 =
      n + 8 + 10 * inst.expanded_queries.length from by omega,
    parseArrBody_renderQueries inst.expanded_queries n ('}' :: rest)]
  simp only [sBrace]
  rfl

/-- A rendered record is at least 4 characters long. -/
theorem renderQueryL_len (q : ExpandedQuery) : 4 ≤ (renderQueryL q).length := by
  rw [renderQueryL]
  simp only [List.length_append, List.length_cons, List.length_nil]
  omega

/-- Fuel bound: the record list is far longer than a tenth of its length. -/
theorem renderQueriesL_len (qs : List ExpandedQuery) :
    10 * qs.length ≤ 3 * (renderQueriesL qs).length := by
  induction qs with
  | nil => simp [renderQueriesL]
  | cons q tl ih =>
      cases tl with
      | nil =>
          have := renderQueryL_len q
          rw [show renderQueriesL [q] = renderQueryL q from rfl]
          simp only [List.length_cons, List.length_nil]
          omega
      | cons q2 tl2 =>
          rw [show renderQueriesL (q :: q2 :: tl2) =
            renderQueryL q ++ ',' :: renderQueriesL (q2 :: tl2) from rfl]
          have h1 := renderQueryL_len q
          simp only [List.length_append, List.length_cons] at *
          omega

/-- The default fuel of `json_loads` covers a rendered instance. -/
theorem renderInstanceL_fuel (inst : FanoutInstance) :
    13 + 10 * inst.expanded_queries.length ≤ 3 * (renderInstanceL inst).length + 3 := by
  have h := renderQueriesL_len inst.expanded_queries
  rw [renderInstanceL]
  simp only [List.length_append, List.length_cons, List.length_nil]
  omega

/-- A string that starts with `\x7b` and ends with `\x7d` is untouched by
`str.strip()`. -/
theorem pyStripL_of_ends (l : List Char) (h1 : ∃ t, l = '{' :: t)
    (h2 : ∃ p, l = p ++ ['}']) : pyStripL l = l := by
  obtain ⟨t, ht⟩ := h1
  obtain ⟨p, hp⟩ := h2
  have step1 : l.dropWhile isPyWs = l := by
    rw [ht, List.dropWhile_cons, show isPyWs '{' = false from rfl]
    simp
  rw [pyStripL, step1, hp, List.reverse_append, List.reverse_singleton,
    List.singleton_append, List.dropWhile_cons, show isPyWs '}' = false from rfl]
  simp

/-- The greedy `.*\x7d` step takes exactly up to the last `\x7d`. -/
theorem takeUptoLastClose_eq (cs : List Char) :
    takeUptoLastClose cs = (lastCloseIdx cs).map (fun j => cs.take (j + 1)) := by
  induction cs with
  | nil => rfl
  | cons c cs ih =>
      simp only [takeUptoLastClose, lastCloseIdx, ih]
      cases h : lastCloseIdx cs with
      | some j => simp
      | none => by_cases hc : c = '}' <;> simp [hc]

/-- The index of the last `\x7d` of a text that ends in `\x7d`. -/
theorem lastCloseIdx_append_close (p : List Char) :
    lastCloseIdx (p ++ ['}']) = some p.length := by
  induction p with
  | nil => rfl
  | cons c p ih =>
      rw [List.cons_append, lastCloseIdx, ih]
      simp

/-- The regex search on a text that is one brace-bounded block returns
the whole text. -/
theorem searchBrace_braced (l : List Char) (h1 : ∃ t, l = '{' :: t)
    (h2 : ∃ p, l = p ++ ['}']) : searchBrace l = some l := by
  obtain ⟨t, ht⟩ := h1
  obtain ⟨p, hp⟩ := h2
  cases p with
  | nil => rw [ht] at hp; simp at hp
  | cons c p2 =>
      rw [ht, List.cons_append] at hp
      injection hp with hc htp
      subst hc
      have htake : takeUptoLastClose (p2 ++ ['}']) = some (p2 ++ ['}']) := by
        rw [takeUptoLastClose_eq, lastCloseIdx_append_close]
        have : p2.length + 1 = (p2 ++ ['}']).length := by simp
        simp only [Option.map_some']
        rw [this, List.take_length]
      rw [ht, htp]
      simp [searchBrace, matchHere, htake]

/-- The `json.loads` decodes a rendered schema instance to its value. -/
theorem json_loads_renderInstance (inst : FanoutInstance) :
    json_loads (renderInstance inst) = some (instanceJson inst) := by
  have hlen := renderInstanceL_fuel inst
  have hmain := parseVal_renderInstance inst
    (3 * (renderInstanceL inst).length + 3 - (13 + 10 * inst.expanded_queries.length)) []
  rw [List.append_nil] at hmain
  simp only [json_loads]
  rw [show (renderInstance inst).data = renderInstanceL inst from rfl,
    show 3 * (renderInstanceL inst).length + 3 =
      3 * (renderInstanceL inst).length + 3 - (13 + 10 * inst.expanded_queries.length) +
        13 + 10 * inst.expanded_queries.length from by omega,
    hmain]
  rfl

/-- A middle factor of a string concatenation is an infix of its text. -/
theorem data_infix_of_split {s x t y : String} (h : s = x ++ t ++ y) :
    t.data <:+: s.data :=
  ⟨x.data, y.data, by rw [h]; simp [String.data_append, List.append_assoc]⟩

/-- A final factor of a string concatenation is a suffix of its text. -/
theorem data_suffix_of_split {s x t : String} (h : s = x ++ t) :
    t.data <:+ s.data :=
  ⟨x.data, by rw [h]; simp [String.data_append]⟩

/-- The `get_query_fanout_prompt` in the simple mode, fully unfolded. -/
theorem prompt_simple_eq (q : String) :
    get_query_fanout_prompt q simpleModeStr =
      promptH1 ++ q ++ promptH2 ++ simpleModeStr ++ promptH3 ++
        simpleInstr q simpleModeStr ++ promptH4 ++ JSON_STRUCTURE_EXAMPLE := by
  simp [get_query_fanout_prompt]

/-- The `get_query_fanout_prompt` in the complex mode, fully unfolded. -/
theorem prompt_complex_eq (q : String) :
    get_query_fanout_prompt q complexModeStr =
      promptH1 ++ q ++ promptH2 ++ complexModeStr ++ promptH3 ++
        complexInstr q complexModeStr ++ promptH4 ++ JSON_STRUCTURE_EXAMPLE := by
  have h : ¬(complexModeStr = simpleModeStr) := by decide
  simp [get_query_fanout_prompt, h]

/-- Claim C1: for every query and each of the two modes, the prompt built
by `get_query_fanout_prompt` contains the literal query text, contains the
sentence stating the mode's minimum query count (10 in the simple mode,
20 in the complex mode), and ends with `JSON_STRUCTURE_EXAMPLE` verbatim. -/
theorem prompt_contains_query_threshold_and_schema (q : String) :
    (q.data <:+: (get_query_fanout_prompt q simpleModeStr).data ∧
      min_queries_simple = 10 ∧
      ("這個數字**至少需要是 " ++ toString min_queries_simple ++ "**。 ").data <:+:
        (get_query_fanout_prompt q simpleModeStr).data ∧
      JSON_STRUCTURE_EXAMPLE.data <:+ (get_query_fanout_prompt q simpleModeStr).data) ∧
    (q.data <:+: (get_query_fanout_prompt q complexModeStr).data ∧
      min_queries_complex = 20 ∧
      ("這個數字**至少需要是 " ++ toString min_queries_complex ++ "**。 ").data <:+:
        (get_query_fanout_prompt q complexModeStr).data ∧
      JSON_STRUCTURE_EXAMPLE.data <:+ (get_query_fanout_prompt q complexModeStr).data) := by
  refine ⟨⟨?_, rfl, ?_, ?_⟩, ⟨?_, rfl, ?_, ?_⟩⟩
  · exact data_infix_of_split (x := promptH1)
      (y := promptH2 ++ simpleModeStr ++ promptH3 ++ simpleInstr q simpleModeStr ++
        promptH4 ++ JSON_STRUCTURE_EXAMPLE)
      (by rw [prompt_simple_eq]; simp [String.append_assoc])
  · exact data_infix_of_split
      (x := promptH1 ++ q ++ promptH2 ++ simpleModeStr ++ promptH3 ++
        instrHead q simpleModeStr)
      (y := simpleInstrTail ++ promptH4 ++ JSON_STRUCTURE_EXAMPLE)
      (by rw [prompt_simple_eq]; simp [simpleInstr, simpleThreshold, String.append_assoc])
  · exact data_suffix_of_split
      (x := promptH1 ++ q ++ promptH2 ++ simpleModeStr ++ promptH3 ++
        simpleInstr q simpleModeStr ++ promptH4)
      (by rw [prompt_simple_eq])
  · exact data_infix_of_split (x := promptH1)
      (y := promptH2 ++ complexModeStr ++ promptH3 ++ complexInstr q complexModeStr ++
        promptH4 ++ JSON_STRUCTURE_EXAMPLE)
      (by rw [prompt_complex_eq]; simp [String.append_assoc])
  · exact data_infix_of_split
      (x := promptH1 ++ q ++ promptH2 ++ complexModeStr ++ promptH3 ++
        instrHead q complexModeStr)
      (y := complexInstrTail ++ promptH4 ++ JSON_STRUCTURE_EXAMPLE)
      (by rw [prompt_complex_eq]; simp [complexInstr, complexThreshold, String.append_assoc])
  · exact data_suffix_of_split
      (x := promptH1 ++ q ++ promptH2 ++ complexModeStr ++ promptH3 ++
        complexInstr q complexModeStr ++ promptH4)
      (by rw [prompt_complex_eq])

/-- When a region exists, `searchBrace` returns exactly the segment from
the first `\x7b` to the last `\x7d`. -/
theorem searchBrace_region (s : List Char) :
    ∀ i j, firstOpenIdx s = some i → lastCloseIdx s = some j → i < j →
      searchBrace s = some ((s.drop i).take (j + 1 - i)) := by
  induction s with
  | nil => intro i j hi; cases hi
  | cons c cs ih =>
      intro i j hi hj hij
      by_cases hc : c = '{'
      · subst hc
        have hi0 : i = 0 := by
          rw [firstOpenIdx, if_pos rfl] at hi
          exact (Option.some.inj hi).symm
        cases h2 : lastCloseIdx cs with
        | none =>
            rw [lastCloseIdx, h2, if_neg (by decide)] at hj
            cases hj
        | some j0 =>
            rw [lastCloseIdx, h2] at hj
            have hj0 : j = j0 + 1 := (Option.some.inj hj).symm
            subst hi0; subst hj0
            simp [searchBrace, matchHere, takeUptoLastClose_eq, h2]
      · rw [firstOpenIdx, if_neg hc] at hi
        cases h1 : firstOpenIdx cs with
        | none => rw [h1] at hi; cases hi
        | some i0 =>
            rw [h1] at hi
            have hi0 : i = i0 + 1 := (Option.some.inj hi).symm
            cases h2 : lastCloseIdx cs with
        | none =>
            rw [lastCloseIdx, h2] at hj
            by_cases hcc : c = '}'
            · rw [if_pos hcc] at hj
              have : j = 0 := (Option.some.inj hj).symm
              omega
            · rw [if_neg hcc] at hj; cases hj
        | some j0 =>
            rw [lastCloseIdx, h2] at hj
            have hj0 : j = j0 + 1 := (Option.some.inj hj).symm
            subst hi0; subst hj0
            have hrec := ih i0 j0 h1 h2 (by omega)
            have harith : j0 + 1 + 1 - (i0 + 1) = j0 + 1 - i0 := by omega
            simp [searchBrace, matchHere, hc, hrec, harith]

/-- When no `\x7b` strictly precedes the last `\x7d`, `searchBrace` fails. -/
theorem searchBrace_no_region (s : List Char)
    (h : ∀ i j, firstOpenIdx s = some i → lastCloseIdx s = some j → j ≤ i) :
    searchBrace s = none := by
  induction s with
  | nil => rfl
  | cons c cs ih =>
      by_cases hc : c = '{'
      · subst hc
        cases h2 : lastCloseIdx cs with
        | some j0 =>
            have := h 0 (j0 + 1) (by rw [firstOpenIdx, if_pos rfl])
              (by rw [lastCloseIdx, h2])
            omega
        | none =>
            simp only [searchBrace, matchHere, if_pos rfl, takeUptoLastClose_eq, h2,
              Option.map_none]
            apply ih
            intro i j hi hj
            rw [h2] at hj; cases hj
      · simp only [searchBrace, matchHere, if_neg hc]
        apply ih
        intro i j hi hj
        have h1 : firstOpenIdx (c :: cs) = some (i + 1) := by
          rw [firstOpenIdx, if_neg hc, hi]; rfl
        have hj1 : lastCloseIdx (c :: cs) = some (j + 1) := by
          rw [lastCloseIdx, hj]
        have := h (i + 1) (j + 1) h1 hj1
        omega

/-- Claim C2: the interpreter extracts exactly the substring that runs
from the first `\x7b` to the last `\x7d` of the (stripped) response text;
when no such region exists the run fails with `noJsonFound`, the raw
output is carried in the error for display, and `None` is returned. -/
theorem extraction_first_open_to_last_close (t : String) (d : Option Json) :
    (∀ i j, firstOpenIdx (pyStrip t).data = some i →
        lastCloseIdx (pyStrip t).data = some j → i < j →
        searchBrace (pyStrip t).data =
          some (((pyStrip t).data.drop i).take (j + 1 - i))) ∧
    ((∀ i j, firstOpenIdx (pyStrip t).data = some i →
        lastCloseIdx (pyStrip t).data = some j → j ≤ i) →
      interpretResponse t d =
        ⟨none, d, some (FanoutError.noJsonFound (pyStrip t))⟩) := by
  refine ⟨searchBrace_region _, fun h => ?_⟩
  simp [interpretResponse, searchBrace_no_region _ h]

/-- Witness for C2 at concrete inputs: a match over two brace groups, and
the failure outcome on a text whose only `\x7b` follows its `\x7d`. -/
theorem extraction_first_open_to_last_close_witness :
    searchBrace (pyStrip "x\x7ba\x7dy\x7bb\x7dz").data =
      some (((pyStrip "x\x7ba\x7dy\x7bb\x7dz").data.drop 1).take 7) ∧
    interpretResponse "\x7dx\x7b" none =
      ⟨none, none, some (FanoutError.noJsonFound (pyStrip "\x7dx\x7b"))⟩ := by
  constructor
  · exact (extraction_first_open_to_last_close "x\x7ba\x7dy\x7bb\x7dz" none).1 1 7
      rfl rfl (by omega)
  · refine (extraction_first_open_to_last_close "\x7dx\x7b" none).2 ?_
    intro i j hi hj
    rw [show firstOpenIdx (pyStrip "\x7dx\x7b").data = some 2 from rfl] at hi
    rw [show lastCloseIdx (pyStrip "\x7dx\x7b").data = some 0 from rfl] at hj
    have hi2 : i = 2 := (Option.some.inj hi).symm
    have hj0 : j = 0 := (Option.some.inj hj).symm
    omega

/-- Claim C3: when the extracted brace-bounded substring does not decode
as JSON, the run reports `malformedJson` carrying that substring, resets
the published generation details to `None`, and returns `None`. -/
theorem malformed_json_publishes_nothing (t : String) (d : Option Json) (cs : List Char)
    (hx : searchBrace (pyStrip t).data = some cs)
    (hp : json_loads (String.mk cs) = none) :
    interpretResponse t d =
      ⟨none, none, some (FanoutError.malformedJson (String.mk cs))⟩ := by
  simp [interpretResponse, hx, hp]

/-- Witness for C3 at a concrete failing response text. -/
theorem malformed_json_publishes_nothing_witness :
    searchBrace (pyStrip "x\x7bbad\x7dy").data = some "\x7bbad\x7d".data ∧
    json_loads (String.mk "\x7bbad\x7d".data) = none ∧
    interpretResponse "x\x7bbad\x7dy" none =
      ⟨none, none, some (FanoutError.malformedJson (String.mk "\x7bbad\x7d".data))⟩ :=
  ⟨rfl, rfl, malformed_json_publishes_nothing "x\x7bbad\x7dy" none "\x7bbad\x7d".data rfl rfl⟩

/-- Claim C7: a decodable response whose `expanded_queries` is the empty
array is not an error: the interpreter succeeds with the empty list, and
the display reports this as the distinct empty warning, while a `None`
result (a parse failure) lands in the idle branch instead. -/
theorem empty_list_success_distinct (t : String) (d : Option Json) (cs : List Char)
    (data : Json)
    (hx : searchBrace (pyStrip t).data = some cs)
    (hl : json_loads (String.mk cs) = some data)
    (he : jget data "expanded_queries" (Json.arr []) = Json.arr []) :
    interpretResponse t d =
      ⟨some (Json.arr []), some (jget data "generation_details" (Json.obj [])), none⟩ ∧
    mainBranch (some (Json.arr [])) = ViewBranch.emptyWarning ∧
    mainBranch none = ViewBranch.idle ∧
    ViewBranch.emptyWarning ≠ ViewBranch.idle := by
  refine ⟨?_, rfl, rfl, by simp⟩
  simp [interpretResponse, hx, hl, he]

/-- Witness for C7 at a concrete response with an empty query array. -/
theorem empty_list_success_distinct_witness :
    searchBrace (pyStrip "\x7b\"expanded_queries\": []\x7d").data =
      some "\x7b\"expanded_queries\": []\x7d".data ∧
    json_loads (String.mk "\x7b\"expanded_queries\": []\x7d".data) =
      some (Json.obj [("expanded_queries", Json.arr [])]) ∧
    (interpretResponse "\x7b\"expanded_queries\": []\x7d" none =
      ⟨some (Json.arr []),
       some (jget (Json.obj [("expanded_queries", Json.arr [])])
         "generation_details" (Json.obj [])), none⟩ ∧
     mainBranch (some (Json.arr [])) = ViewBranch.emptyWarning ∧
     mainBranch none = ViewBranch.idle ∧
     ViewBranch.emptyWarning ≠ ViewBranch.idle) :=
  ⟨rfl, rfl,
    empty_list_success_distinct "\x7b\"expanded_queries\": []\x7d" none
      "\x7b\"expanded_queries\": []\x7d".data
      (Json.obj [("expanded_queries", Json.arr [])]) rfl rfl rfl⟩

/-- Claim C9: the response interpretation is deterministic and idempotent:
re-interpreting the same text starting from the session state the first
interpretation produced yields the identical outcome, and pressing run
twice with the same inputs reproduces the same session state. -/
theorem interpretation_idempotent (t : String) (d : Option Json)
    (prev : Session) (q mode : String) (model : String → String) :
    interpretResponse t (interpretResponse t d).details = interpretResponse t d ∧
    runButton (runButton prev q mode model).session q mode model =
      runButton prev q mode model := by
  constructor
  · cases hx : searchBrace (pyStrip t).data with
    | none => simp [interpretResponse, hx]
    | some cs =>
        cases hl : json_loads (String.mk cs) with
        | none => simp [interpretResponse, hx, hl]
        | some data => simp [interpretResponse, hx, hl]
  · rfl

/-- Claim C10: a blank (empty or whitespace-only) query warns, makes no
model call, and leaves both session slots cleared to `None`. -/
theorem blank_query_warns_without_model_call (prev : Session) (q mode : String)
    (model : String → String) (h : (pyStrip q).isEmpty = true) :
    runButton prev q mode model = ⟨⟨none, none⟩, true, false⟩ := by
  simp [runButton, h]

/-- Claim C4: a raw text whose only content is a well-formed schema
instance round-trips: the interpreter recovers exactly the declared
`target_query_count` and `reasoning_for_count`, and each record's four
fields, preserving the order of `expanded_queries`. -/
theorem schema_instance_roundtrip (inst : FanoutInstance) (d : Option Json) :
    interpretResponse (renderInstance inst) d =
      ⟨some (Json.arr (inst.expanded_queries.map queryJson)),
       some (detailsJson inst), none⟩ := by
  have ex1 : ∃ t, renderInstanceL inst = '{' :: t := ⟨_, rfl⟩
  have ex2 : ∃ p, renderInstanceL inst = p ++ ['}'] := by
    refine ⟨"\x7b\"generation_details\":\x7b\"target_query_count\":".data ++
      renderIntL inst.target_query_count ++ ",\"reasoning_for_count\":".data ++
      renderStrL inst.reasoning_for_count ++ "\x7d,\"expanded_queries\":[".data ++
      renderQueriesL inst.expanded_queries ++ [']'], ?_⟩
    rw [renderInstanceL, show ("]\x7d" : String).data = [']'] ++ ['}'] from rfl]
    simp [List.append_assoc]
  have hstrip : pyStripL (renderInstanceL inst) = renderInstanceL inst :=
    pyStripL_of_ends _ ex1 ex2
  have hsearch : searchBrace (pyStrip (renderInstance inst)).data =
      some (renderInstanceL inst) := by
    show searchBrace (pyStripL (renderInstanceL inst)) = some (renderInstanceL inst)
    rw [hstrip]
    exact searchBrace_braced _ ex1 ex2
  have hjl : json_loads (String.mk (renderInstanceL inst)) = some (instanceJson inst) :=
    json_loads_renderInstance inst
  have hg1 : jget (instanceJson inst) "expanded_queries" (Json.arr []) =
      Json.arr (inst.expanded_queries.map queryJson) := rfl
  have hg2 : jget (instanceJson inst) "generation_details" (Json.obj []) =
      detailsJson inst := rfl
  simp only [interpretResponse, hsearch, hjl, hg1, hg2]

/-- Claim C5: for a parsed response, the declared target count and the
actual number of produced records are both preserved, the nonempty result
is displayed, the generation-plan panel is shown (details truthy), and
the mismatch warning fires exactly when the two counts diverge. -/
theorem declared_and_actual_counts_surfaced (inst : FanoutInstance) (d : Option Json)
    (hq : inst.expanded_queries ≠ []) :
    (interpretResponse (renderInstance inst) d).ret =
      some (Json.arr (inst.expanded_queries.map queryJson)) ∧
    (interpretResponse (renderInstance inst) d).details = some (detailsJson inst) ∧
    (inst.expanded_queries.map queryJson).length = inst.expanded_queries.length ∧
    mainBranch (interpretResponse (renderInstance inst) d).ret =
      ViewBranch.showResults (Json.arr (inst.expanded_queries.map queryJson)) ∧
    pyTruthy (detailsJson inst) = true ∧
    planDisplay (detailsJson inst) (inst.expanded_queries.map queryJson) =
      ⟨Json.num inst.target_query_count, Json.str inst.reasoning_for_count,
       inst.expanded_queries.length,
       inst.target_query_count != (inst.expanded_queries.length : Int)⟩ := by
  rw [schema_instance_roundtrip inst d]
  have hne : (inst.expanded_queries.map queryJson).isEmpty = false := by
    cases h : inst.expanded_queries with
    | nil => exact absurd h hq
    | cons q tl => simp [h]
  have j1 : jget (detailsJson inst) "target_query_count" (Json.str "N/A") =
      Json.num inst.target_query_count := rfl
  have j2 : jget (detailsJson inst) "reasoning_for_count" (Json.str "模型未提供") =
      Json.str inst.reasoning_for_count := rfl
  refine ⟨rfl, rfl, List.length_map _ _, ?_, ?_, ?_⟩
  · simp [mainBranch, pyTruthy, hne]
  · rfl
  · simp only [planDisplay, j1, j2]
    rw [List.length_map]

/-- Witness for C5 at a concrete instance declaring 12 but producing 1. -/
theorem declared_and_actual_counts_surfaced_witness :
    (FanoutInstance.mk 12 "rationale"
        [ExpandedQuery.mk "q1" "reformulation" "intent1" "reason1"]).expanded_queries ≠ [] ∧
    ((interpretResponse (renderInstance (FanoutInstance.mk 12 "rationale"
        [ExpandedQuery.mk "q1" "reformulation" "intent1" "reason1"])) none).ret =
      some (Json.arr ((FanoutInstance.mk 12 "rationale"
        [ExpandedQuery.mk "q1" "reformulation" "intent1" "reason1"]).expanded_queries.map
          queryJson)) ∧
     (interpretResponse (renderInstance (FanoutInstance.mk 12 "rationale"
        [ExpandedQuery.mk "q1" "reformulation" "intent1" "reason1"])) none).details =
      some (detailsJson (FanoutInstance.mk 12 "rationale"
        [ExpandedQuery.mk "q1" "reformulation" "intent1" "reason1"])) ∧
     ((FanoutInstance.mk 12 "rationale"
        [ExpandedQuery.mk "q1" "reformulation" "intent1" "reason1"]).expanded_queries.map
          queryJson).length =
      (FanoutInstance.mk 12 "rationale"
        [ExpandedQuery.mk "q1" "reformulation" "intent1" "reason1"]).expanded_queries.length ∧
     mainBranch (interpretResponse (renderInstance (FanoutInstance.mk 12 "rationale"
        [ExpandedQuery.mk "q1" "reformulation" "intent1" "reason1"])) none).ret =
      ViewBranch.showResults (Json.arr ((FanoutInstance.mk 12 "rationale"
        [ExpandedQuery.mk "q1" "reformulation" "intent1" "reason1"]).expanded_queries.map
          queryJson)) ∧
     pyTruthy (detailsJson (FanoutInstance.mk 12 "rationale"
        [ExpandedQuery.mk "q1" "reformulation" "intent1" "reason1"])) = true ∧
     planDisplay (detailsJson (FanoutInstance.mk 12 "rationale"
        [ExpandedQuery.mk "q1" "reformulation" "intent1" "reason1"]))
        ((FanoutInstance.mk 12 "rationale"
          [ExpandedQuery.mk "q1" "reformulation" "intent1" "reason1"]).expanded_queries.map
            queryJson) =
      ⟨Json.num (FanoutInstance.mk 12 "rationale"
          [ExpandedQuery.mk "q1" "reformulation" "intent1" "reason1"]).target_query_count,
       Json.str (FanoutInstance.mk 12 "rationale"
          [ExpandedQuery.mk "q1" "reformulation" "intent1" "reason1"]).reasoning_for_count,
       (FanoutInstance.mk 12 "rationale"
          [ExpandedQuery.mk "q1" "reformulation" "intent1" "reason1"]).expanded_queries.length,
       (FanoutInstance.mk 12 "rationale"
          [ExpandedQuery.mk "q1" "reformulation" "intent1"
            "reason1"]).target_query_count !=
         ((FanoutInstance.mk 12 "rationale"
          [ExpandedQuery.mk "q1" "reformulation" "intent1"
            "reason1"]).expanded_queries.length : Int)⟩) :=
  ⟨List.cons_ne_nil _ _,
   declared_and_actual_counts_surfaced
     (FanoutInstance.mk 12 "rationale"
       [ExpandedQuery.mk "q1" "reformulation" "intent1" "reason1"]) none
     (List.cons_ne_nil _ _)⟩

/-- Counterexample to claim C6 as stated: a successfully decoded response
whose single record lacks the `type`, `user_intent` and `reasoning`
fields parses fine, but the display step's column selection
`df[REQUIRED_COLS]` fails (pandas `KeyError`, modelled by `none`) instead
of rendering the absent fields blank. -/
theorem missing_field_display_fails_cex :
    interpretResponse "\x7b\"expanded_queries\": [\x7b\"query\": \"a\"\x7d]\x7d" none =
      ⟨some (Json.arr [Json.obj [("query", Json.str "a")]]),
       some (Json.obj []), none⟩ ∧
    selectCols [Json.obj [("query", Json.str "a")]] = none :=
  ⟨rfl, rfl⟩

/-- Claim C6 (amended): missing or unknown sub-fields never fail the
parse, and as long as each of the four expected columns appears in at
least one record, the column selection succeeds and a field absent from
an individual record is rendered as the blank cell; only a column absent
from every record makes the selection step fail. -/
theorem missing_fields_render_blank_amended (records : List Json)
    (h : ∀ c ∈ REQUIRED_COLS, (dfColumns records).contains c = true) :
    selectCols records =
      some (records.map (fun r => REQUIRED_COLS.map (fun c => jlookup r c))) ∧
    ∀ r ∈ records, ∀ c : String, jlookup r c = none →
      csvCellText (jlookup r c) = "" := by
  constructor
  · have hall : REQUIRED_COLS.all (fun c => (dfColumns records).contains c) = true := by
      rw [List.all_eq_true]
      exact h
    rw [selectCols, if_pos hall]
  · intro r hr c hc
    rw [hc]
    rfl

/-- Witness for the amended C6: two records, the second carrying only
`query`; selection succeeds and the second record's other cells are blank. -/
theorem missing_fields_render_blank_amended_witness :
    (∀ c ∈ REQUIRED_COLS,
      (dfColumns [Json.obj [("query", Json.str "a"), ("type", Json.str "b"),
          ("user_intent", Json.str "c"), ("reasoning", Json.str "dd")],
        Json.obj [("query", Json.str "e")]]).contains c = true) ∧
    (selectCols [Json.obj [("query", Json.str "a"), ("type", Json.str "b"),
          ("user_intent", Json.str "c"), ("reasoning", Json.str "dd")],
        Json.obj [("query", Json.str "e")]] =
      some ([Json.obj [("query", Json.str "a"), ("type", Json.str "b"),
          ("user_intent", Json.str "c"), ("reasoning", Json.str "dd")],
        Json.obj [("query", Json.str "e")]].map
          (fun r => REQUIRED_COLS.map (fun c => jlookup r c))) ∧
     ∀ r ∈ [Json.obj [("query", Json.str "a"), ("type", Json.str "b"),
          ("user_intent", Json.str "c"), ("reasoning", Json.str "dd")],
        Json.obj [("query", Json.str "e")]], ∀ c : String, jlookup r c = none →
        csvCellText (jlookup r c) = "") :=
  ⟨by decide,
   missing_fields_render_blank_amended
     [Json.obj [("query", Json.str "a"), ("type", Json.str "b"),
         ("user_intent", Json.str "c"), ("reasoning", Json.str "dd")],
       Json.obj [("query", Json.str "e")]] (by decide)⟩

/-- Quoting never introduces a newline into a newline-free field. -/
theorem csvField_no_nl (s : String) (h : ∀ ch ∈ s.data, ¬ch = '\n' ∧ ¬ch = '\r') :
    ∀ ch ∈ (csvField s).data, ¬ch = '\n' := by
  intro ch hch
  rw [csvField] at hch
  by_cases hq : s.data.any (fun c => c = ',' || c = '"' || c = '\n' || c = '\r') = true
  · rw [if_pos hq] at hch
    simp only [String.data_append, List.mem_append, List.mem_cons] at hch
    rcases hch with (hch | hch) | hch
    · simp at hch
      subst hch; decide
    · rw [List.mem_flatMap] at hch
      obtain ⟨c0, hc0, hin⟩ := hch
      by_cases hc0q : c0 = '"'
      · rw [if_pos hc0q] at hin
        simp at hin
        subst hin; decide
      · rw [if_neg hc0q] at hin
        simp at hin
        rw [hin]
        exact (h c0 hc0).1
    · simp at hch
      subst hch; decide
  · rw [if_neg hq] at hch
    exact (h ch hch).1

/-- An interposed comma row of newline-free fields stays newline-free. -/
theorem strIntercalate_no_nl (l : List String)
    (h : ∀ s ∈ l, ∀ ch ∈ s.data, ¬ch = '\n') :
    ∀ ch ∈ (strIntercalate "," l).data, ¬ch = '\n' := by
  induction l with
  | nil => intro ch hch; simp [strIntercalate] at hch
  | cons s tl ih =>
      cases tl with
      | nil =>
          intro ch hch
          exact h s (List.mem_cons_self s []) ch hch
      | cons s2 tl2 =>
          intro ch hch
          rw [show strIntercalate "," (s :: s2 :: tl2) =
            s ++ "," ++ strIntercalate "," (s2 :: tl2) from rfl] at hch
          simp only [String.data_append, List.mem_append] at hch
          rcases hch with (hch | hch) | hch
          · exact h s (List.mem_cons_self s (s2 :: tl2)) ch hch
          · simp at hch
            subst hch; decide
          · exact ih (fun s3 hs3 => h s3 (List.mem_cons_of_mem s hs3)) ch hch

/-- A row of newline-free cells contributes exactly one newline. -/
theorem csvRow_count (cells : List String)
    (h : ∀ s ∈ cells, ∀ ch ∈ s.data, ¬ch = '\n') :
    (csvRow cells).data.count '\n' = 1 := by
  rw [csvRow]
  rw [String.data_append, List.count_append]
  have h0 : (strIntercalate "," cells).data.count '\n' = 0 := by
    rw [List.count_eq_zero]
    intro hmem
    exact strIntercalate_no_nl cells h '\n' hmem rfl
  rw [h0, show ("\n" : String).data.count '\n' = 1 from rfl]

/-- Concatenating strings of one newline each yields one per string. -/
theorem strConcat_count (l : List String) (h : ∀ s ∈ l, s.data.count '\n' = 1) :
    (strConcat l).data.count '\n' = l.length := by
  induction l with
  | nil => rfl
  | cons s tl ih =>
      rw [show strConcat (s :: tl) = s ++ strConcat tl from rfl, String.data_append,
        List.count_append, h s (List.mem_cons_self s tl),
        ih (fun s2 hs2 => h s2 (List.mem_cons_of_mem s hs2))]
      simp only [List.length_cons]
      omega

/-- Claim C8: when the column selection succeeds and no cell text
contains a newline or carriage return, the generated CSV has exactly
`N + 1` newline-terminated lines — one header plus one row per record —
and its first line is the fixed header `query,type,user_intent,reasoning`. -/
theorem csv_export_line_count (records : List Json) (table : List (List (Option Json)))
    (hsel : selectCols records = some table)
    (hnl : ∀ row ∈ table, ∀ cell ∈ row, ∀ ch ∈ (csvCellText cell).data,
      ¬ch = '\n' ∧ ¬ch = '\r') :
    (to_csv table).data.count '\n' = records.length + 1 ∧
    (to_csv table).data.takeWhile (fun c => !(c = '\n')) =
      "query,type,user_intent,reasoning".data := by
  have htab : table.length = records.length := by
    rw [selectCols] at hsel
    by_cases hcond : REQUIRED_COLS.all (fun c => (dfColumns records).contains c) = true
    · rw [if_pos hcond] at hsel
      rw [← Option.some.inj hsel, List.length_map]
    · rw [if_neg hcond] at hsel
      cases hsel
  constructor
  · rw [to_csv, String.data_append, List.count_append,
      show (csvRow (REQUIRED_COLS.map csvField)).data.count '\n' = 1 from rfl]
    rw [strConcat_count]
    · rw [List.length_map, htab]
      omega
    · intro s hs
      rw [List.mem_map] at hs
      obtain ⟨row, hrow, hrs⟩ := hs
      rw [← hrs]
      apply csvRow_count
      intro cellS hcs
      rw [List.mem_map] at hcs
      obtain ⟨cell, hcell, hcsf⟩ := hcs
      rw [← hcsf]
      exact csvField_no_nl _ (hnl row hrow cell hcell)
  · exact rfl

/-- Witness for C8 at a one-record table. -/
theorem csv_export_line_count_witness :
    selectCols [Json.obj [("query", Json.str "w"), ("type", Json.str "x"),
        ("user_intent", Json.str "y"), ("reasoning", Json.str "z")]] =
      some [[some (Json.str "w"), some (Json.str "x"),
        some (Json.str "y"), some (Json.str "z")]] ∧
    (∀ row ∈ [[some (Json.str "w"), some (Json.str "x"),
        some (Json.str "y"), some (Json.str "z")]],
      ∀ cell ∈ row, ∀ ch ∈ (csvCellText cell).data, ¬ch = '\n' ∧ ¬ch = '\r') ∧
    ((to_csv [[some (Json.str "w"), some (Json.str "x"),
        some (Json.str "y"), some (Json.str "z")]]).data.count '\n' =
      [Json.obj [("query", Json.str "w"), ("type", Json.str "x"),
        ("user_intent", Json.str "y"), ("reasoning", Json.str "z")]].length + 1 ∧
     (to_csv [[some (Json.str "w"), some (Json.str "x"),
        some (Json.str "y"), some (Json.str "z")]]).data.takeWhile (fun c => !(c = '\n')) =
      "query,type,user_intent,reasoning".data) :=
  ⟨rfl, by decide,
   csv_export_line_count
     [Json.obj [("query", Json.str "w"), ("type", Json.str "x"),
       ("user_intent", Json.str "y"), ("reasoning", Json.str "z")]]
     [[some (Json.str "w"), some (Json.str "x"),
       some (Json.str "y"), some (Json.str "z")]] rfl (by decide)⟩

/-- Witness for C10 at a whitespace-only query and a dirty prior session. -/
theorem blank_query_warns_without_model_call_witness :
    ((pyStrip "  \n\t ").isEmpty = true) ∧
    runButton ⟨some (Json.num 5), some (Json.arr [Json.null])⟩ "  \n\t "
      simpleModeStr (fun p => p) = ⟨⟨none, none⟩, true, false⟩ :=
  ⟨rfl, blank_query_warns_without_model_call
    ⟨some (Json.num 5), some (Json.arr [Json.null])⟩ "  \n\t " simpleModeStr
    (fun p => p) rfl⟩

end Qforia
